import Mathlib

/-!
Shallow embedding of the configuration-resolution core of `azctl`
(package `internal/config`, validation helpers in `internal/validation`).

The Go store `Config` holds `values map[string]string`; we model the map as
a function `String → Option String`.  Keys are uppercase-normalized with
`strings.ToUpper`, modelled by `toUpperGo` (character-wise `Char.toUpper`;
the configuration keys in play are ASCII, where the two functions agree).
Effectful inputs (the process environment, the `.env` file read, the remote
`az appconfig` calls) are passed in explicitly as values of a `World`
record, and fallible code returns `Except`/`Option` instead of panicking.

The repository ships several historical variants of the config layer.  The
provider-based variant (file `src/unnamed/part_012`, the one the unit tests
in `config_test.go` compile against: they reset `globalConfig`/`configOnce`)
is embedded as the implementation of record; where a claim cites a specific
`appconfig.go` variant, that variant is embedded separately under its own
name.
-/

namespace Azctl

/-- Model of Go `strings.ToUpper`, character by character (ASCII-faithful). -/
def toUpperGo (s : String) : String := String.mk (s.data.map Char.toUpper)

/-- Model of a Go `map[string]string`: a partial function from keys to
values. -/
abbrev Values := String → Option String

/-- The empty map (`make(map[string]string)`). -/
def Values.empty : Values := fun _ => none

/-- Go map upsert `m[k] = v`. -/
def Values.insert (m : Values) (k v : String) : Values :=
  fun q => if q = k then some v else m q

/-- Function `Config.Get` (part_012 lines 72-81): looks the key up after
uppercasing; returns the empty string when absent. -/
def Config.get (c : Values) (key : String) : String :=
  (c (toUpperGo key)).getD ""

/-- Function `Config.Set` (part_012 lines 83-89): upsert under the
uppercased key. -/
def Config.set (c : Values) (key value : String) : Values :=
  Values.insert c (toUpperGo key) value

/-- Function `Config.Has` (part_012 lines 112-115): true iff `Get` is
non-empty. -/
def Config.has (c : Values) (key : String) : Bool :=
  Config.get c key != ""

/-- Function `Config.Require` (part_012 lines 103-110).  The Go code panics
with `fmt.Errorf("missing required configuration: %s", key)` on an empty
value; the panic is modelled as the `Except.error` branch carrying the same
message. -/
def Config.require (c : Values) (key : String) : Except String String :=
  let v := Config.get c key
  if v = "" then
    Except.error ("missing required configuration: " ++ key)
  else
    Except.ok v

/-- First statement of `Config.applyFallbacks` (part_012 lines 119-124):
derive `ACR_REGISTRY` from `REGISTRY` when absent. -/
def fallbackAcr (c : Values) : Values :=
  if Config.get c "ACR_REGISTRY" = "" then
    if Config.get c "REGISTRY" ≠ "" then
      Config.set c "ACR_REGISTRY" (Config.get c "REGISTRY")
    else c
  else c

/-- Second statement of `Config.applyFallbacks` (part_012 lines 126-131):
derive `IMAGE_REGISTRY` from the (possibly just written) `ACR_REGISTRY`
when absent. -/
def fallbackImage (c : Values) : Values :=
  if Config.get c "IMAGE_REGISTRY" = "" then
    if Config.get c "ACR_REGISTRY" ≠ "" then
      Config.set c "IMAGE_REGISTRY" (Config.get c "ACR_REGISTRY")
    else c
  else c

/-- Function `Config.applyFallbacks` (part_012 lines 117-132): the two
derivations in source order. -/
def Config.applyFallbacks (c : Values) : Values :=
  fallbackImage (fallbackAcr c)

/-- The three configuration providers of part_012 (lines 150-255). -/
inductive Provider
  | azureAppConfig
  | envFile
  | environment
deriving DecidableEq

/-- Method `Provider.Priority` (part_012: AzureAppConfig 10, EnvFile 50,
Environment 100; the interface comment reads "Higher priority means higher
precedence"). -/
def Provider.priority : Provider → Nat
  | .azureAppConfig => 10
  | .envFile => 50
  | .environment => 100

/-- Outcomes of the effectful provider loads, passed in explicitly:
`osEnv` is the snapshot taken by `EnvironmentProvider.Load` (never fails),
`envFileResult` is the outcome of `EnvFileProvider.Load` (CI skip, missing
file and the godotenv read folded into this value), and `remoteResult` is
the outcome of `AzureAppConfigProvider.Load`, i.e. of the `az appconfig`
fetch. -/
structure World where
  osEnv : List (String × String)
  envFileResult : Except String (List (String × String))
  remoteResult : Except String (List (String × String))

/-- Method `Provider.Load` (part_012 lines 156-237), with the I/O outcomes
drawn from the `World`. -/
def Provider.load (p : Provider) (w : World) :
    Except String (List (String × String)) :=
  match p with
  | .environment => Except.ok w.osEnv
  | .envFile => w.envFileResult
  | .azureAppConfig => w.remoteResult

/-- One comparison step of the provider sort in `Config.Load` (part_012
lines 44-50): when `providers[i].Priority() < providers[j].Priority()`,
swap them. -/
def swapIfLess (l : List Provider) (i j : Nat) : List Provider :=
  let a := l.getD i .azureAppConfig
  let b := l.getD j .azureAppConfig
  if a.priority < b.priority then (l.set i b).set j a else l

/-- The double loop sorting providers in `Config.Load` (part_012
lines 43-50): all index pairs `i < j` in lexicographic order, swapping to
put the larger priority first, i.e. descending priority order. -/
def sortProviders (l : List Provider) : List Provider :=
  (List.range l.length).foldl
    (fun acc i =>
      (List.range l.length).foldl
        (fun acc2 j => if i < j then swapIfLess acc2 i j else acc2) acc)
    l

/-- The initial provider list of `Config.Load` (part_012 lines 37-41). -/
def initialProviders : List Provider :=
  [.azureAppConfig, .envFile, .environment]

/-- Merge of one provider's returned map into the store (part_012
lines 59-63): `c.values[strings.ToUpper(k)] = v` for each pair. -/
def mergeValues (c : Values) (kvs : List (String × String)) : Values :=
  kvs.foldl (fun acc kv => Values.insert acc (toUpperGo kv.1) kv.2) c

/-- The provider-merge loop of `Config.Load` (part_012 lines 52-64):
providers in sorted order, a failing provider is skipped
(`if err != nil { continue }`), a succeeding one is merged into the store
that started empty from `New()`. -/
def loadMerged (w : World) : Values :=
  (sortProviders initialProviders).foldl
    (fun acc p =>
      match Provider.load p w with
      | .ok kvs => mergeValues acc kvs
      | .error _ => acc)
    Values.empty

/-- Method `Config.Load` (part_012 lines 36-70): merge the providers, apply
the fallbacks once, `return nil`. -/
def Config.load (w : World) : Values × Option String :=
  (Config.applyFallbacks (loadMerged w), none)

/-- The package-level singleton state (part_012 lines 257-259):
`globalConfig` is nil until the `sync.Once` body has run; the once flag is
modelled by the presence of the store. -/
structure GlobalState where
  globalConfig : Option Values

/-- Function `Init` (part_012 lines 261-269): on the first call the
`sync.Once` body constructs the store and runs `Load`, and the local
`initErr` carries that result; on any later call the body is skipped and
the fresh zero-valued `initErr` — Go `nil` — is returned. -/
def Init (st : GlobalState) (w : World) : GlobalState × Option String :=
  match st.globalConfig with
  | some _ => (st, none)
  | none =>
    let r := Config.load w
    (⟨some r.1⟩, r.2)

/-- Function `validation.RequiredVars` (validate.go lines 218-230): collect
every absent key, and if any are missing return one combined error naming
all of them. -/
def RequiredVars (cfg : Values) (vars : List String) : Option String :=
  let missing := vars.filter (fun v => !(Config.has cfg v))
  if missing.length > 0 then
    some ("missing required environment variables: " ++
      String.intercalate ", " missing)
  else
    none

/-- Method `Config.Validate` (part_012 lines 134-148): same collection
logic with a different message prefix. -/
def Config.validate (c : Values) (required : List String) : Option String :=
  let missing := required.filter (fun v => !(Config.has c v))
  if missing.length > 0 then
    some ("missing required configuration variables: " ++
      String.intercalate ", " missing)
  else
    none

/-- Substring test used to state the validation-message properties. -/
def strContains (s pat : String) : Bool := decide (pat.data <:+: s.data)

/-- A heap of Go maps, for the aliasing behaviour of `GetAll`: addresses
are list indices. -/
abbrev Heap := List Values

/-- Allocation of a fresh map (`make(map[string]string)` populated before
escaping): appends a cell and returns its address. -/
def Heap.alloc (h : Heap) (m : Values) : Heap × Nat := (h ++ [m], h.length)

/-- Dereference of a map address. -/
def Heap.readMap (h : Heap) (r : Nat) : Values := List.getD h r Values.empty

/-- In-place mutation of the map stored at an address (any sequence of
`result[k] = v` writes replaces the cell's contents). -/
def Heap.writeCell (h : Heap) (r : Nat) (m : Values) : Heap := List.set h r m

/-- Method `Config.GetAll` (part_012 lines 91-101): builds
`result := make(map[string]string)`, copies every key-value pair of
`c.values` into it and returns it — modelled as allocating a fresh heap
cell holding the same mapping as the store's cell. -/
def Config.getAll (h : Heap) (r : Nat) : Heap × Nat :=
  Heap.alloc h (Heap.readMap h r)

/-- A JSON field value as the fetch code distinguishes them: only
string-valued fields are flattened, everything else is ignored. -/
inductive JVal
  | str (s : String)
  | nonStr

/-- Outcome of JSON-parsing a fetched entry's value: a JSON object with
its fields, or unparseable data. -/
inductive ParsedValue
  | obj (fields : List (String × JVal))
  | malformed

/-- Outcome of one `az appconfig kv show` invocation: the command failed
(entry not found), the `{key:key,value:value}` envelope did not unmarshal
(silently skipped by every variant), or an entry value was obtained. -/
inductive FetchOutcome
  | notFound
  | badEnvelope
  | value (v : ParsedValue)

/-- Remote responses for the `appconfig.go` first-section variant, which
issues one unlabeled global query and one unlabeled entity query. -/
structure RemoteWorldA where
  globalEntry : FetchOutcome
  svcEntry : FetchOutcome

/-- Per-field flattening of the global entry in the `appconfig.go`
first-section variant (lines 43-53): uppercase the field name, but rename
`ACR_REGISTRY` to `REGISTRY` before inserting. -/
def addGlobalFieldA (m : Values) (f : String × JVal) : Values :=
  match f.2 with
  | .str s =>
    let keyName := toUpperGo f.1
    let keyName := if keyName = "ACR_REGISTRY" then "REGISTRY" else keyName
    Values.insert m keyName s
  | .nonStr => m

/-- Flattening loop over the global entry's fields (first-section
variant). -/
def insertGlobalFieldsA (m : Values) (fields : List (String × JVal)) : Values :=
  fields.foldl addGlobalFieldA m

/-- Per-field flattening without renaming, as used for the entity-specific
entry (appconfig.go lines 77-81) and for every entry of the labeled
variant: insert under the uppercased field name. -/
def addFieldUpper (m : Values) (f : String × JVal) : Values :=
  match f.2 with
  | .str s => Values.insert m (toUpperGo f.1) s
  | .nonStr => m

/-- Flattening loop without renaming. -/
def insertFieldsUpper (m : Values) (fields : List (String × JVal)) : Values :=
  fields.foldl addFieldUpper m

/-- Function `fetchAzureAppConfigWithImage`, `appconfig.go` first-section
variant (lines 20-96): one global query (rename applied), one
entity-specific query (no rename), parse failures logged and skipped, and
the function always returns a nil error. -/
def fetchAzureAppConfigWithImageA (name imageName : String)
    (w : RemoteWorldA) : Values × Option String :=
  if name = "" then (Values.empty, none)
  else
    let m := Values.empty
    let m :=
      match w.globalEntry with
      | .value (.obj fields) => insertGlobalFieldsA m fields
      | _ => m
    let m :=
      if imageName ≠ "" then
        match w.svcEntry with
        | .value (.obj fields) => insertFieldsUpper m fields
        | _ => m
      else m
    (m, none)

/-- Remote responses for the labeled variants: the first global and
entity queries carry the label (when non-empty), and the retries omit
it. -/
structure RemoteWorld where
  globalLabeled : FetchOutcome
  globalNoLabel : FetchOutcome
  svcLabeled : FetchOutcome
  svcNoLabel : FetchOutcome

/-- Function `fetchAzureAppConfigWithImage`, `appconfig.go` second-section
variant (lines 116-253, the lines cited by the malformed-JSON claim): the
labeled query is retried without the label when the command fails and a
label was given; a found entry whose value fails to JSON-parse is merely
logged and skipped; every path returns a nil error. -/
def fetchAzureAppConfigWithImage (name label imageName : String)
    (w : RemoteWorld) : Values × Option String :=
  if name = "" then (Values.empty, none)
  else
    let m := Values.empty
    let m :=
      match w.globalLabeled with
      | .value (.obj fields) => insertFieldsUpper m fields
      | .value .malformed => m
      | .badEnvelope => m
      | .notFound =>
        if label ≠ "" then
          match w.globalNoLabel with
          | .value (.obj fields) => insertFieldsUpper m fields
          | _ => m
        else m
    let m :=
      if imageName ≠ "" then
        match w.svcLabeled with
        | .value (.obj fields) => insertFieldsUpper m fields
        | .value .malformed => m
        | .badEnvelope => m
        | .notFound =>
          if label ≠ "" then
            match w.svcNoLabel with
            | .value (.obj fields) => insertFieldsUpper m fields
            | _ => m
          else m
      else m
    (m, none)

/-- Function `fetchAzureAppConfigWithImage`, newest corpus variant (the
sections appended after the tests in `config_test.go`, lines 120-281): same
control flow as the labeled variant, but a found entry whose value fails to
JSON-parse aborts with an error (message quotes and the wrapped cause
elided). -/
def fetchAzureAppConfigWithImageFatal (name label imageName : String)
    (w : RemoteWorld) : Except String Values :=
  if name = "" then Except.ok Values.empty
  else
    let step1 : Except String Values :=
      match w.globalLabeled with
      | .value (.obj fields) => Except.ok (insertFieldsUpper Values.empty fields)
      | .value .malformed =>
        Except.error "malformed JSON in Azure App Configuration global-configurations key"
      | .badEnvelope => Except.ok Values.empty
      | .notFound =>
        if label ≠ "" then
          match w.globalNoLabel with
          | .value (.obj fields) => Except.ok (insertFieldsUpper Values.empty fields)
          | .value .malformed =>
            Except.error "malformed JSON in Azure App Configuration global-configurations key (no label)"
          | _ => Except.ok Values.empty
        else Except.ok Values.empty
    match step1 with
    | .error e => Except.error e
    | .ok m =>
      if imageName ≠ "" then
        match w.svcLabeled with
        | .value (.obj fields) => Except.ok (insertFieldsUpper m fields)
        | .value .malformed =>
          Except.error ("malformed JSON in Azure App Configuration key " ++ imageName)
        | .badEnvelope => Except.ok m
        | .notFound =>
          if label ≠ "" then
            match w.svcNoLabel with
            | .value (.obj fields) => Except.ok (insertFieldsUpper m fields)
            | .value .malformed =>
              Except.error ("malformed JSON in Azure App Configuration key " ++
                imageName ++ " (no label)")
            | _ => Except.ok m
          else Except.ok m
      else Except.ok m

/-- Concrete world for the precedence counterexample: all three sources
contribute the key `K` with distinct values. -/
def conflictWorld : World :=
  ⟨[("K", "env")], Except.ok [("K", "file")], Except.ok [("K", "remote")]⟩

/-- Concrete world for the fallback-chaining witness: only `REGISTRY` is
contributed, by the environment. -/
def regOnlyWorld : World :=
  ⟨[("REGISTRY", "r.io")], Except.ok [], Except.ok []⟩

/-- Concrete remote responses: the global entry is found but its value is
not parseable JSON; nothing else exists. -/
def malformedRemote : RemoteWorld :=
  ⟨FetchOutcome.value ParsedValue.malformed, .notFound, .notFound, .notFound⟩

/-- Store holding only the key `B`, for the validation scenario. -/
def onlyBStore : Values := Config.set Values.empty "B" "1"

/- ------------------------------------------------------------------ -/
/- Helper lemmas.                                                     -/
/- ------------------------------------------------------------------ -/

theorem Config.get_set_eq (c : Values) (k v k' : String)
    (h : toUpperGo k' = toUpperGo k) :
    Config.get (Config.set c k v) k' = v := by
  simp [Config.get, Config.set, Values.insert, h]

theorem Config.get_set_ne (c : Values) (k v k' : String)
    (h : toUpperGo k' ≠ toUpperGo k) :
    Config.get (Config.set c k v) k' = Config.get c k' := by
  simp [Config.get, Config.set, Values.insert, h]

theorem fallbackAcr_get_registry (c : Values) :
    Config.get (fallbackAcr c) "REGISTRY" = Config.get c "REGISTRY" := by
  unfold fallbackAcr
  split
  · split
    · rw [Config.get_set_ne _ _ _ _ (by decide)]
    · rfl
  · rfl

theorem fallbackAcr_get_image (c : Values) :
    Config.get (fallbackAcr c) "IMAGE_REGISTRY" =
      Config.get c "IMAGE_REGISTRY" := by
  unfold fallbackAcr
  split
  · split
    · rw [Config.get_set_ne _ _ _ _ (by decide)]
    · rfl
  · rfl

theorem fallbackAcr_of_present (c : Values)
    (h : Config.get c "ACR_REGISTRY" ≠ "") : fallbackAcr c = c := by
  unfold fallbackAcr
  rw [if_neg h]

theorem fallbackAcr_of_absent (c : Values)
    (h : Config.get c "ACR_REGISTRY" = "")
    (hr : Config.get c "REGISTRY" ≠ "") :
    fallbackAcr c = Config.set c "ACR_REGISTRY" (Config.get c "REGISTRY") := by
  unfold fallbackAcr
  rw [if_pos h, if_pos hr]

theorem fallbackImage_get_registry (c : Values) :
    Config.get (fallbackImage c) "REGISTRY" = Config.get c "REGISTRY" := by
  unfold fallbackImage
  split
  · split
    · rw [Config.get_set_ne _ _ _ _ (by decide)]
    · rfl
  · rfl

theorem fallbackImage_get_acr (c : Values) :
    Config.get (fallbackImage c) "ACR_REGISTRY" =
      Config.get c "ACR_REGISTRY" := by
  unfold fallbackImage
  split
  · split
    · rw [Config.get_set_ne _ _ _ _ (by decide)]
    · rfl
  · rfl

theorem fallbackImage_of_present (c : Values)
    (h : Config.get c "IMAGE_REGISTRY" ≠ "") : fallbackImage c = c := by
  unfold fallbackImage
  rw [if_neg h]

theorem fallbackImage_of_absent (c : Values)
    (h : Config.get c "IMAGE_REGISTRY" = "")
    (ha : Config.get c "ACR_REGISTRY" ≠ "") :
    fallbackImage c =
      Config.set c "IMAGE_REGISTRY" (Config.get c "ACR_REGISTRY") := by
  unfold fallbackImage
  rw [if_pos h, if_pos ha]

/- ------------------------------------------------------------------ -/
/- Claim theorems.                                                    -/
/- ------------------------------------------------------------------ -/

/-- C1 (code bug): `Config.Load` (part_012 lines 36-70) sorts the providers
in descending priority order and then merges them in that order, so the
lowest-priority Remote Config Source is merged last and overwrites the
Process Environment Source, inverting the documented precedence: with all
three sources contributing `K`, the final value is the remote one, not the
environment's. -/
theorem azctl_C1_lowest_priority_wins :
    sortProviders initialProviders =
      [.environment, .envFile, .azureAppConfig] ∧
    Config.get (Config.load conflictWorld).1 "K" = "remote" := by
  exact ⟨by decide, by decide⟩

/-- C2 (code bug): malformed JSON on a found remote entry is never fatal to
`Load`: the cited fetch variant returns a nil error on every input
(malformed values are logged and skipped), the newest fetch variant does
return a malformed-JSON error, but `Config.Load` (part_012 lines 52-64)
skips any failing provider, so `Load` returns nil no matter what the
providers did. -/
theorem azctl_C2_malformed_not_fatal :
    (∀ (name label imageName : String) (w : RemoteWorld),
      (fetchAzureAppConfigWithImage name label imageName w).2 = none) ∧
    (fetchAzureAppConfigWithImageFatal "cfg" "dev" "" malformedRemote =
      Except.error "malformed JSON in Azure App Configuration global-configurations key") ∧
    (∀ w : World, (Config.load w).2 = none) := by
  refine ⟨?_, rfl, fun _ => rfl⟩
  intro name label imageName w
  unfold fetchAzureAppConfigWithImage
  split <;> rfl

/-- C3: one-time initialization (part_012 lines 257-269): a second (or any
later) `Init` call leaves the store of the first call in place, does not
reload, and returns exactly the pair the first call produced — `Init` after
`Init` is a fixpoint.  The returned results agree because `Load` always
returns nil, which is also the zero value of the skipped call's local
`initErr`. -/
theorem azctl_C3_init_once (w w' : World) :
    Init (Init ⟨none⟩ w).1 w' = Init ⟨none⟩ w := rfl

/-- C4: fallback derivation (part_012 lines 117-132, invoked once from
`Load` at line 67): `Load` is exactly the provider merge followed by one
`applyFallbacks` pass; the derivation never writes the alias `REGISTRY`,
never overwrites a present canonical key, and fills an absent canonical key
from its alias. -/
theorem azctl_C4_fallback_once_after_merge :
    (∀ w : World,
      Config.load w = (Config.applyFallbacks (loadMerged w), none)) ∧
    (∀ c : Values,
      (Config.get (Config.applyFallbacks c) "REGISTRY" =
        Config.get c "REGISTRY") ∧
      (Config.get c "ACR_REGISTRY" ≠ "" →
        Config.get (Config.applyFallbacks c) "ACR_REGISTRY" =
          Config.get c "ACR_REGISTRY") ∧
      (Config.get c "ACR_REGISTRY" = "" → Config.get c "REGISTRY" ≠ "" →
        Config.get (Config.applyFallbacks c) "ACR_REGISTRY" =
          Config.get c "REGISTRY") ∧
      (Config.get c "IMAGE_REGISTRY" ≠ "" →
        Config.get (Config.applyFallbacks c) "IMAGE_REGISTRY" =
          Config.get c "IMAGE_REGISTRY") ∧
      (Config.get c "IMAGE_REGISTRY" = "" →
        Config.get c "ACR_REGISTRY" ≠ "" →
        Config.get (Config.applyFallbacks c) "IMAGE_REGISTRY" =
          Config.get c "ACR_REGISTRY")) := by
  constructor
  · intro w
    rfl
  · intro c
    refine ⟨?_, ?_, ?_, ?_, ?_⟩
    · simp only [Config.applyFallbacks]
      rw [fallbackImage_get_registry, fallbackAcr_get_registry]
    · intro h
      simp only [Config.applyFallbacks]
      rw [fallbackAcr_of_present c h, fallbackImage_get_acr]
    · intro h hr
      simp only [Config.applyFallbacks]
      rw [fallbackAcr_of_absent c h hr, fallbackImage_get_acr]
      exact Config.get_set_eq _ _ _ _ (by decide)
    · intro h
      simp only [Config.applyFallbacks]
      have h1 : Config.get (fallbackAcr c) "IMAGE_REGISTRY" ≠ "" := by
        rw [fallbackAcr_get_image]
        exact h
      rw [fallbackImage_of_present _ h1, fallbackAcr_get_image]
    · intro h ha
      simp only [Config.applyFallbacks]
      rw [fallbackAcr_of_present c ha]
      rw [fallbackImage_of_absent c h ha]
      rw [Config.get_set_eq _ _ _ _ (by decide)]

/-- C4 witness: with only `REGISTRY` set, the derivation fills
`ACR_REGISTRY` with `REGISTRY`'s value. -/
theorem azctl_C4_witness :
    Config.get (Config.applyFallbacks (Config.set Values.empty "REGISTRY" "r.io"))
      "ACR_REGISTRY" =
      Config.get (Config.set Values.empty "REGISTRY" "r.io") "REGISTRY" :=
  (azctl_C4_fallback_once_after_merge.2
    (Config.set Values.empty "REGISTRY" "r.io")).2.2.1 (by decide) (by decide)

/-- C5: keys are uppercase-normalized on both `Set` and `Get`
(part_012 lines 72-89): for any keys whose uppercasings coincide, the later
`Set` wins and is visible through every spelling of the key. -/
theorem azctl_C5_case_insensitive_last_write
    (c : Values) (k1 k2 k3 v w : String)
    (h12 : toUpperGo k1 = toUpperGo k2) (h32 : toUpperGo k3 = toUpperGo k2) :
    Config.get (Config.set (Config.set c k1 v) k2 w) k1 = w ∧
    Config.get (Config.set (Config.set c k1 v) k2 w) k3 = w := by
  constructor
  · exact Config.get_set_eq _ _ _ _ h12
  · exact Config.get_set_eq _ _ _ _ h32

/-- C5 witness: `Set("foo", v)` then `Set("FOO", w)` makes both
`Get("foo")` and `Get("Foo")` return `w`. -/
theorem azctl_C5_witness :
    Config.get (Config.set (Config.set Values.empty "foo" "v") "FOO" "w") "foo" = "w" ∧
    Config.get (Config.set (Config.set Values.empty "foo" "v") "FOO" "w") "Foo" = "w" :=
  azctl_C5_case_insensitive_last_write Values.empty "foo" "FOO" "Foo" "v" "w"
    (by decide) (by decide)

/-- C6: required-keys validation (validate.go lines 218-230, part_012
lines 134-148): the result is nil exactly when every key is present, and
otherwise it is one combined error; for keys `A`, `B`, `C` with only `B`
present the single message names `A` and `C` and not `B` (in both the
`RequiredVars` and the `Config.Validate` phrasing). -/
theorem azctl_C6_required_vars :
    (∀ (cfg : Values) (keys : List String),
      RequiredVars cfg keys = none ↔ ∀ k ∈ keys, Config.has cfg k = true) ∧
    (RequiredVars onlyBStore ["A", "B", "C"] =
      some "missing required environment variables: A, C") ∧
    strContains "missing required environment variables: A, C" "A" = true ∧
    strContains "missing required environment variables: A, C" "C" = true ∧
    strContains "missing required environment variables: A, C" "B" = false ∧
    (Config.validate onlyBStore ["A", "B", "C"] =
      some "missing required configuration variables: A, C") := by
  refine ⟨?_, by decide, by decide, by decide, by decide, by decide⟩
  intro cfg keys
  simp only [RequiredVars]
  by_cases h : (List.filter (fun v => !(Config.has cfg v)) keys).length > 0
  · rw [if_pos h]
    apply iff_of_false (by simp)
    intro hall
    rw [gt_iff_lt, List.length_pos] at h
    obtain ⟨k, hk⟩ := List.exists_mem_of_ne_nil _ h
    have hmem := List.mem_filter.mp hk
    have h2 := hall k hmem.1
    simp [h2] at hmem
  · rw [if_neg h]
    apply iff_of_true rfl
    intro k hk
    by_contra hfalse
    apply h
    rw [gt_iff_lt, List.length_pos]
    intro hnil
    have hkin : k ∈ List.filter (fun v => !(Config.has cfg v)) keys := by
      rw [List.mem_filter]
      exact ⟨hk, by simp [Bool.not_eq_true] at hfalse; simp [hfalse]⟩
    rw [hnil] at hkin
    exact absurd hkin (List.not_mem_nil k)

/-- C6 witness: with only `B` present, validating the singleton list `B`
succeeds (nil error). -/
theorem azctl_C6_witness :
    RequiredVars onlyBStore ["B"] = none :=
  (azctl_C6_required_vars.1 onlyBStore ["B"]).mpr (by decide)

/-- C7: `GetAll` (part_012 lines 91-101) returns a defensive copy: the
returned map lives at a fresh address, and replacing that copy's contents
by any mutation leaves the store's mapping — hence every later `Get` and
`GetAll` — unchanged. -/
theorem azctl_C7_getall_defensive_copy
    (h : Heap) (r : Nat) (hr : r < h.length) (m' : Values) (key : String) :
    (Config.getAll h r).2 ≠ r ∧
    Heap.readMap (Heap.writeCell (Config.getAll h r).1 (Config.getAll h r).2 m') r =
      Heap.readMap h r ∧
    Config.get (Heap.readMap
      (Heap.writeCell (Config.getAll h r).1 (Config.getAll h r).2 m') r) key =
      Config.get (Heap.readMap h r) key := by
  have haddr : (Config.getAll h r).2 = h.length := rfl
  have hne : h.length ≠ r := (Nat.ne_of_lt hr).symm
  have hread : Heap.readMap
      (Heap.writeCell (Config.getAll h r).1 (Config.getAll h r).2 m') r =
      Heap.readMap h r := by
    show List.getD (List.set (h ++ [Heap.readMap h r]) h.length m') r Values.empty =
      List.getD h r Values.empty
    rw [List.getD_eq_getElem?_getD, List.getD_eq_getElem?_getD,
      List.getElem?_set_ne hne, List.getElem?_append_left hr]
  refine ⟨by rw [haddr]; exact hne, hread, by rw [hread]⟩

/-- C7 witness: instantiation on a one-cell heap. -/
theorem azctl_C7_witness :
    (Config.getAll [Values.empty] 0).2 ≠ 0 ∧
    Heap.readMap (Heap.writeCell (Config.getAll [Values.empty] 0).1
      (Config.getAll [Values.empty] 0).2 (Values.insert Values.empty "K" "x")) 0 =
      Heap.readMap [Values.empty] 0 ∧
    Config.get (Heap.readMap (Heap.writeCell (Config.getAll [Values.empty] 0).1
      (Config.getAll [Values.empty] 0).2 (Values.insert Values.empty "K" "x")) 0) "K" =
      Config.get (Heap.readMap [Values.empty] 0) "K" :=
  azctl_C7_getall_defensive_copy [Values.empty] 0 (by decide)
    (Values.insert Values.empty "K" "x") "K"

/-- C8: `Require` returns the stored value when `Get` is non-empty, and
fails with the "missing required configuration" error exactly when `Get`
is empty (part_012 lines 103-110; the Go panic is the error branch). -/
theorem azctl_C8_require_contract (c : Values) (key : String) :
    (Config.get c key ≠ "" →
      Config.require c key = Except.ok (Config.get c key)) ∧
    (Config.get c key = "" →
      Config.require c key =
        Except.error ("missing required configuration: " ++ key)) := by
  constructor
  · intro h
    simp [Config.require, h]
  · intro h
    simp [Config.require, h]

/-- C8 witness: `Require("X")` on the empty store fails with the
missing-required-configuration error, and after `Set("X","1")` it returns
`"1"` without error. -/
theorem azctl_C8_witness :
    Config.require Values.empty "X" =
      Except.error ("missing required configuration: " ++ "X") ∧
    Config.require (Config.set Values.empty "X" "1") "X" = Except.ok "1" := by
  constructor
  · exact (azctl_C8_require_contract Values.empty "X").2 (by decide)
  · have h := (azctl_C8_require_contract (Config.set Values.empty "X" "1") "X").1
      (by decide)
    have hv : Config.get (Config.set Values.empty "X" "1") "X" = "1" := by decide
    rw [hv] at h
    exact h

/-- C9: the fallback pairs chain within the single pass (part_012
lines 117-132): when the merged sources leave `ACR_REGISTRY` and
`IMAGE_REGISTRY` empty but `REGISTRY` non-empty, `Load` ends with both
`ACR_REGISTRY` and `IMAGE_REGISTRY` equal to `REGISTRY`'s value, because
`IMAGE_REGISTRY` is derived from the just-derived `ACR_REGISTRY`. -/
theorem azctl_C9_fallback_chain (w : World)
    (hacr : Config.get (loadMerged w) "ACR_REGISTRY" = "")
    (himg : Config.get (loadMerged w) "IMAGE_REGISTRY" = "")
    (hreg : Config.get (loadMerged w) "REGISTRY" ≠ "") :
    Config.get (Config.load w).1 "ACR_REGISTRY" =
      Config.get (loadMerged w) "REGISTRY" ∧
    Config.get (Config.load w).1 "IMAGE_REGISTRY" =
      Config.get (loadMerged w) "REGISTRY" := by
  have hload : (Config.load w).1 = Config.applyFallbacks (loadMerged w) := rfl
  have hstep : fallbackAcr (loadMerged w) =
      Config.set (loadMerged w) "ACR_REGISTRY"
        (Config.get (loadMerged w) "REGISTRY") :=
    fallbackAcr_of_absent _ hacr hreg
  have hdimg : Config.get (fallbackAcr (loadMerged w)) "IMAGE_REGISTRY" = "" := by
    rw [hstep, Config.get_set_ne _ _ _ _ (by decide)]
    exact himg
  have hdacr : Config.get (fallbackAcr (loadMerged w)) "ACR_REGISTRY" =
      Config.get (loadMerged w) "REGISTRY" := by
    rw [hstep]
    exact Config.get_set_eq _ _ _ _ (by decide)
  constructor
  · rw [hload]
    simp only [Config.applyFallbacks]
    rw [fallbackImage_get_acr]
    exact hdacr
  · rw [hload]
    simp only [Config.applyFallbacks]
    rw [fallbackImage_of_absent _ hdimg (by rw [hdacr]; exact hreg)]
    rw [Config.get_set_eq _ _ _ _ (by decide)]
    exact hdacr

/-- C9 witness: with only `REGISTRY=r.io` contributed (by the environment),
`Load` yields `ACR_REGISTRY` and `IMAGE_REGISTRY` both equal to
`REGISTRY`'s merged value. -/
theorem azctl_C9_witness :
    Config.get (Config.load regOnlyWorld).1 "ACR_REGISTRY" =
      Config.get (loadMerged regOnlyWorld) "REGISTRY" ∧
    Config.get (Config.load regOnlyWorld).1 "IMAGE_REGISTRY" =
      Config.get (loadMerged regOnlyWorld) "REGISTRY" :=
  azctl_C9_fallback_chain regOnlyWorld (by decide) (by decide) (by decide)

/-- C10: in the `appconfig.go` first-section variant, a string-valued
global field uppercasing to `ACR_REGISTRY` is inserted as `REGISTRY`; other
global fields and all entity-specific fields are inserted under their own
uppercased names; a full fetch shows the rename on the global entry and
its absence on the entity entry. -/
theorem azctl_C10_global_acr_rename :
    (∀ (m : Values) (k s : String), toUpperGo k = "ACR_REGISTRY" →
      addGlobalFieldA m (k, JVal.str s) = Values.insert m "REGISTRY" s ∧
      addFieldUpper m (k, JVal.str s) = Values.insert m "ACR_REGISTRY" s) ∧
    (∀ (m : Values) (k s : String), toUpperGo k ≠ "ACR_REGISTRY" →
      addGlobalFieldA m (k, JVal.str s) = Values.insert m (toUpperGo k) s) ∧
    ((fetchAzureAppConfigWithImageA "cfg" "app1"
        ⟨.value (.obj [("acr_registry", .str "g")]),
         .value (.obj [("port", .str "8080"), ("acr_registry", .str "e")])⟩).1
      "REGISTRY" = some "g" ∧
     (fetchAzureAppConfigWithImageA "cfg" "app1"
        ⟨.value (.obj [("acr_registry", .str "g")]),
         .value (.obj [("port", .str "8080"), ("acr_registry", .str "e")])⟩).1
      "ACR_REGISTRY" = some "e" ∧
     (fetchAzureAppConfigWithImageA "cfg" "app1"
        ⟨.value (.obj [("acr_registry", .str "g")]),
         .value (.obj [("port", .str "8080"), ("acr_registry", .str "e")])⟩).1
      "PORT" = some "8080") := by
  refine ⟨?_, ?_, by decide, by decide, by decide⟩
  · intro m k s h
    constructor
    · simp [addGlobalFieldA, h]
    · simp [addFieldUpper, h]
  · intro m k s h
    simp [addGlobalFieldA, h]

/-- C10 witness: the field name `acr_registry` (uppercasing to
`ACR_REGISTRY`) is inserted as `REGISTRY` by the global flattening and as
`ACR_REGISTRY` by the entity flattening. -/
theorem azctl_C10_witness :
    addGlobalFieldA Values.empty ("acr_registry", JVal.str "r") =
      Values.insert Values.empty "REGISTRY" "r" ∧
    addFieldUpper Values.empty ("acr_registry", JVal.str "r") =
      Values.insert Values.empty "ACR_REGISTRY" "r" :=
  azctl_C10_global_acr_rename.1 Values.empty "acr_registry" "r" (by decide)

end Azctl
